import Mathlib

/-!
Verification of the generator-tools web application: phone-number
generation and chunking, identity generation, mailbox favorites,
list filtering, copy feedback, and IP-lookup fallback behaviour.

JavaScript strings are modelled as Lean `String` (or `List Char` where
character-level template filling is involved); JavaScript numbers used
as integer counts are modelled as `Nat`/`Int`; `parseInt` results that
may be `NaN` are modelled as `Option Int`; thrown exceptions are
modelled with `Except`; `Math.random()` is modelled by threading a
`Nat` seed through a linear congruential step.
-/

namespace GenTools

/-- Linear congruential pseudo-random step, modelling successive
`Math.random()` draws as a threaded seed. -/
def nextSeed (s : Nat) : Nat := (s * 1103515245 + 12345) % 2147483648

/-- The decimal digit character selected by a seed. -/
def digitChar (s : Nat) : Char :=
  ['0', '1', '2', '3', '4', '5', '6', '7', '8', '9'].getD (s % 10) '0'

/-- Country entry of the phone-number page: id, display name, dialing
code, and the phone-format template (placeholder char `X` marks a
randomized digit position). -/
structure CountryData where
  id : String
  name : String
  code : String
  template : List Char
deriving DecidableEq, Repr

/-- `matchesTemplate t s` holds when `s` has exactly the shape of the
template `t`: a decimal digit wherever `t` has the placeholder `X`, and
the template character itself everywhere else (hence equal lengths). -/
def matchesTemplate : List Char → List Char → Bool
  | [], [] => true
  | tc :: t, c :: s => (if tc = 'X' then c.isDigit else c == tc) && matchesTemplate t s
  | _, _ => false

/-- Modelled from the spec: the digit-filling core of
`generatePhoneNumber` from `lib/phoneData` (not under `src/`); per the
spec it performs "randomized digit-filling into the country's
template". Each placeholder consumes one random draw. -/
def fillTemplate : Nat → List Char → List Char × Nat
  | seed, [] => ([], seed)
  | seed, tc :: rest =>
    if tc = 'X' then
      let r := fillTemplate (nextSeed seed) rest
      (digitChar seed :: r.1, r.2)
    else
      let r := fillTemplate seed rest
      (tc :: r.1, r.2)

/-- Modelled from the spec: `generatePhoneNumber` from `lib/phoneData`
(not under `src/`); per the spec it "produces that many formatted
numbers by repeated randomized digit-filling into the country's
template". Returns the generated numbers and the advanced seed. -/
def generatePhoneNumber (c : CountryData) : Nat → Nat → List (List Char) × Nat
  | 0, seed => ([], seed)
  | n + 1, seed =>
    let one := fillTemplate seed c.template
    let rest := generatePhoneNumber c n one.2
    (one.1 :: rest.1, rest.2)

/-- The per-batch sizes of the chunked generation loop of
`handleGenerate`: batch `i` has size `min 1000 (count - i * 1000)`. -/
def batchSizes (count batches : Nat) : List Nat :=
  (List.range batches).map (fun i => min 1000 (count - i * 1000))

/-- One step of the chunk-accumulating loop body of `handleGenerate`:
generate a batch of the given size and push it onto the accumulator. -/
def batchStep (c : CountryData) (acc : List (List Char) × Nat) (sz : Nat) :
    List (List Char) × Nat :=
  let b := generatePhoneNumber c sz acc.2
  (acc.1 ++ b.1, b.2)

/-- The number-producing part of `handleGenerate` on the phone page:
for `count ≤ 2000` a single call; otherwise `Math.ceil(count / 1000)`
batches of size `min 1000 (count - i * 1000)`, concatenated in
order. -/
def handleGenerateNumbers (c : CountryData) (count seed : Nat) :
    List (List Char) × Nat :=
  if count ≤ 2000 then generatePhoneNumber c count seed
  else
    let batches := (count + 999) / 1000
    (batchSizes count batches).foldl (batchStep c) ([], seed)

/-- Events that can write the phone-generator count state: the
settings-load effect (`localStorage` read followed by `parseInt`) and
the count `Input`'s `onChange` handler (`parseInt` of the typed text).
`none` models a `parseInt` result of `NaN` (every comparison with `NaN`
is false, so the guard rejects it). -/
inductive CountEvent where
  | load (parsed : Option Int)
  | typed (parsed : Option Int)
deriving DecidableEq, Repr

/-- How one event updates the count state. Both code sites apply the
parsed value only when `parsed > 0 && parsed <= 10000`; otherwise the
state is left unchanged. -/
def applyCountEvent (count : Int) : CountEvent → Int
  | .load none => count
  | .load (some v) => if 0 < v ∧ v ≤ 10000 then v else count
  | .typed none => count
  | .typed (some v) => if 0 < v ∧ v ≤ 10000 then v else count

/-- The count state after a sequence of events, starting from the
initial `useState<number>(10)`. -/
def countAfter (events : List CountEvent) : Int :=
  events.foldl applyCountEvent 10

/-- State of the phone-generator page that `handleGenerate` touches. -/
structure PhoneState where
  generatedNumbers : List (List Char)
  isGenerating : Bool
  page : Nat
deriving DecidableEq, Repr

/-- The inside of `handleGenerate`'s deferred callback: the
`try`/`catch`/`finally` around number generation. A thrown exception in
the generation routine is modelled as `Except.error`; the `catch` arm
only logs, and the `finally` arm resets `isGenerating`. -/
def handleGenerateStep (res : Except Unit (List (List Char)))
    (s : PhoneState) : PhoneState :=
  match res with
  | .ok ns => { s with generatedNumbers := ns, isGenerating := false }
  | .error _ => { s with isGenerating := false }

/-- Country entry of the identity page (`lib/countryData`): code and
display name; only `code` is consumed by the generation routine. -/
structure CountryConfig where
  code : String
  name : String
deriving DecidableEq, Repr

/-- The generated identity record of the identity page. -/
structure UserInfo where
  firstName : String
  lastName : String
  birthday : String
  phone : String
  password : String
  email : String
deriving DecidableEq, Repr

/-- Modelled from the spec: `generateName` from `lib/generator` (not
under `src/`); a randomized pick of a first and last name driven by the
selected country code. -/
def generateName (seed : Nat) (countryCode : String) : String × String :=
  let firsts := ["Alex", "Maria", "John", "Wei", "Sofia"]
  let lasts := ["Smith", "Garcia", "Chen", "Müller", "Rossi"]
  (firsts.getD (seed % 5) "Alex" ++ countryCode,
   lasts.getD (nextSeed seed % 5) "Smith")

/-- Modelled from the spec: `generateBirthday` from `lib/generator`
(not under `src/`); a randomized date string. -/
def generateBirthday (seed : Nat) : String :=
  toString (1970 + seed % 40) ++ "-" ++ toString (1 + seed % 12) ++ "-"
    ++ toString (1 + seed % 28)

/-- Modelled from the spec: `generatePhone` from `lib/generator` (not
under `src/`); a randomized digit string behind the country's dialing
code. -/
def generatePhone (seed : Nat) (c : CountryConfig) : String :=
  c.code ++ toString (seed % 1000000000)

/-- Modelled from the spec: `generatePassword` from `lib/generator`
(not under `src/`); a randomized password string. -/
def generatePassword (seed : Nat) : String :=
  "Pw" ++ toString (seed % 100000000) ++ "!"

/-- Modelled from the spec: `generateEmail` from `lib/generator` (not
under `src/`); builds a local part from the names and appends either
the caller-supplied custom domain or a randomized pick from the domain
table. -/
def generateEmail (seed : Nat) (firstName lastName : String)
    (customDomain : Option String) : String :=
  let domains := ["yopmail.com", "mailinator.com", "tempmail.dev"]
  let domain := match customDomain with
    | some d => d
    | none => domains.getD (seed % 3) "yopmail.com"
  (⟨firstName.toList.map Char.toLower⟩ : String) ++ "."
    ++ (⟨lastName.toList.map Char.toLower⟩ : String)
    ++ toString (seed % 100) ++ "@" ++ domain

/-- The custom-domain selection inside `generate` (and `detectIP`):
`selectedDomain === 'random' ? undefined : selectedDomain`. -/
def customDomainOf (selectedDomain : String) : Option String :=
  if selectedDomain = "random" then none else some selectedDomain

/-- The identity record built inside `generate`'s deferred callback:
all six fields are produced afresh from the generation routines; the
email passes through `customDomainOf`. -/
def buildUserInfo (seed : Nat) (c : CountryConfig) (selectedDomain : String) :
    UserInfo :=
  let n := generateName seed c.code
  let s1 := nextSeed seed
  let birthday := generateBirthday s1
  let s2 := nextSeed s1
  let phone := generatePhone s2 c
  let s3 := nextSeed s2
  let password := generatePassword s3
  let s4 := nextSeed s3
  let email := generateEmail s4 n.1 n.2 (customDomainOf selectedDomain)
  ⟨n.1, n.2, birthday, phone, password, email⟩

/-- State of the identity page that `generate` touches. -/
structure HomeState where
  userInfo : UserInfo
  isGenerating : Bool
  copiedField : Option String
deriving DecidableEq, Repr

/-- The inside of `generate`'s deferred callback: `try` builds and
stores a whole new `UserInfo`, `catch` only logs, `finally` resets
`isGenerating`. A thrown exception in the generation routines is
modelled as `Except.error`. -/
def generateFinish (res : Except Unit UserInfo) (s : HomeState) : HomeState :=
  match res with
  | .ok u => { s with userInfo := u, isGenerating := false }
  | .error _ => { s with isGenerating := false }

/-- A temporary-mailbox directory entry (`lib/mailData`): id, name,
optional description, url. -/
structure TempMail where
  id : String
  name : String
  description : Option String
  url : String
deriving DecidableEq, Repr

/-- Modelled from the spec: `toggleFavorite` from `lib/mailData` (not
under `src/`); per the spec the "favorite status [is] persisted as a
set of ids in local storage, toggled by the user". Removes the id when
present and returns `false`, inserts it when absent and returns `true`
(the new favorite status). -/
def toggleFavorite (m : TempMail) (storage : Finset String) :
    Bool × Finset String :=
  if m.id ∈ storage then (false, storage.erase m.id)
  else (true, insert m.id storage)

/-- Mail-page favorites state: the persisted local-storage id set and
the React `favorites` set mirroring it. -/
structure FavState where
  storage : Finset String
  favs : Finset String
deriving DecidableEq

/-- `handleToggleFavorite` on the mail page: toggle the persisted
status, then add or remove the id in the React set according to the
returned new status. -/
def handleToggleFavorite (m : TempMail) (s : FavState) : FavState :=
  let r := toggleFavorite m s.storage
  { storage := r.2,
    favs := if r.1 then insert m.id s.favs else s.favs.erase m.id }

/-- Case-insensitive lowering as in `String.prototype.toLowerCase`
(ASCII-faithful): every character lowered. -/
def jsToLower (s : String) : String := ⟨s.toList.map Char.toLower⟩

/-- `listStartsWith s q`: the char list `q` occurs at the head of `s`. -/
def listStartsWith : List Char → List Char → Bool
  | _, [] => true
  | [], _ :: _ => false
  | a :: as, b :: bs => a == b && listStartsWith as bs

/-- `listContainsSub s q`: the char list `q` occurs contiguously
somewhere in `s`, as in `String.prototype.includes`. -/
def listContainsSub : List Char → List Char → Bool
  | [], q => q.isEmpty
  | s@(_ :: rest), q => listStartsWith s q || listContainsSub rest q

/-- `jsIncludesSub s q`: JavaScript `s.includes(q)` on strings. -/
def jsIncludesSub (s q : String) : Bool := listContainsSub s.toList q.toList

/-- The domain-list predicate: `d.toLowerCase().includes(query)` where
`query` is the lowered search text. -/
def domainMatches (query : String) (d : String) : Bool :=
  jsIncludesSub (jsToLower d) query

/-- `filteredDomains` of the `DomainList` component: the full list for
an empty (falsy) query, otherwise a case-insensitive substring
filter. -/
def filteredDomains (debouncedQuery : String) (allDomains : List String) :
    List String :=
  if debouncedQuery = "" then allDomains
  else allDomains.filter (domainMatches (jsToLower debouncedQuery))

/-- The mail-list predicate of `filteredMails`: the lowered query is a
substring of the lowered name, description (when present), or url. -/
def mailMatches (query : String) (m : TempMail) : Bool :=
  jsIncludesSub (jsToLower m.name) query ||
  (match m.description with
   | some d => jsIncludesSub (jsToLower d) query
   | none => false) ||
  jsIncludesSub (jsToLower m.url) query

/-- `filteredMails` of the `MailPage` component: the full static list
for an empty (falsy) query, otherwise the case-insensitive substring
filter over name, description and url. -/
def filteredMails (debouncedQuery : String) (mails : List TempMail) :
    List TempMail :=
  if debouncedQuery = "" then mails
  else mails.filter (mailMatches (jsToLower debouncedQuery))

/-- The JSON payload of the IP-lookup endpoint as consumed by
`detectIP`: each field may be absent (or empty, which the `||`
fallbacks also replace). -/
structure IpData where
  ip : Option String
  country : Option String
  accurate : Bool
deriving DecidableEq, Repr

/-- The displayed IP information state. -/
structure IpInfo where
  ip : String
  country : String
deriving DecidableEq, Repr

/-- JavaScript `x || d` on an optional string field: the default is
used when the field is absent or the empty string (both falsy). -/
def jsOrDefault (o : Option String) (d : String) : String :=
  match o with
  | none => d
  | some s => if s = "" then d else s

/-- The IP state produced by `detectIP`: the `catch` arm stores the
fixed fallback record, the success arm substitutes per-field
fallbacks. Total in the fetch outcome, so no exception escapes. -/
def detectIPResult (res : Except Unit IpData) : IpInfo :=
  match res with
  | .error _ => ⟨"未知", "US"⟩
  | .ok d => ⟨jsOrDefault d.ip "未知", jsOrDefault d.country "US"⟩

/-- The copy-feedback state of the identity page: the single
`copiedField` value and the pending clear-timer's expiry instant
(`copyToClipboard` clears any previous timer before arming a new
one). -/
structure CopyFeedback where
  copiedField : Option String
  timerExpiry : Option Nat
deriving DecidableEq, Repr

/-- A successful clipboard write for `label` at instant `now`:
`copiedField` is set to the label and the (re-armed) timer will clear
it 2000 ms later. -/
def copyOk (label : String) (now : Nat) (_s : CopyFeedback) : CopyFeedback :=
  { copiedField := some label, timerExpiry := some (now + 2000) }

/-- The clear-timer firing: `setCopiedField(null)`. -/
def timerFire (_s : CopyFeedback) : CopyFeedback :=
  { copiedField := none, timerExpiry := none }

/-- Whether a given field's copied indicator is shown:
`copiedField === label` as in each `InfoRow`'s `isCopied` prop. -/
def indicatorShown (s : CopyFeedback) (label : String) : Bool :=
  s.copiedField == some label

/-- A concrete country entry used to instantiate theorems. -/
def sampleCountry : CountryData :=
  ⟨"US", "United States", "+1", ['+', '1', 'X', 'X', 'X']⟩

/-- A concrete mailbox entry used to instantiate theorems. -/
def sampleMail : TempMail :=
  ⟨"tm1", "TempBox", none, "https://tempbox.example"⟩

theorem generatePhoneNumber_length (c : CountryData) :
    ∀ n seed, (generatePhoneNumber c n seed).1.length = n := by
  intro n
  induction n with
  | zero => intro seed; rfl
  | succ k ih =>
    intro seed
    simp [generatePhoneNumber, ih]

theorem batchSizes_sum :
    ∀ batches count, batches = (count + 999) / 1000 → 1 ≤ count →
      (batchSizes count batches).sum = count := by
  intro batches
  induction batches with
  | zero => intro count hb hc; omega
  | succ k ih =>
    intro count hb hc
    rw [batchSizes, List.range_succ_eq_map]
    simp only [List.map_cons, List.map_map, List.sum_cons]
    have hstep : ∀ i : Nat, min 1000 (count - (i + 1) * 1000)
        = min 1000 ((count - 1000) - i * 1000) := by
      intro i
      have : (i + 1) * 1000 = i * 1000 + 1000 := by ring
      omega
    by_cases hsmall : count ≤ 1000
    · have hk : k = 0 := by omega
      subst hk
      simp [batchSizes]
      omega
    · have hk : k = ((count - 1000) + 999) / 1000 := by omega
      have hrest := ih (count - 1000) hk (by omega)
      rw [batchSizes] at hrest
      have hfun : ((fun i => min 1000 (count - i * 1000)) ∘ (fun i => i + 1))
          = fun i => min 1000 ((count - 1000) - i * 1000) := by
        funext i
        simp only [Function.comp]
        exact hstep i
      rw [hfun, hrest]
      omega

theorem batchStep_length (c : CountryData) (acc : List (List Char) × Nat)
    (sz : Nat) : (batchStep c acc sz).1.length = acc.1.length + sz := by
  simp [batchStep, generatePhoneNumber_length]

theorem foldl_batchStep_length (c : CountryData) :
    ∀ (sizes : List Nat) (acc : List (List Char) × Nat),
      (sizes.foldl (batchStep c) acc).1.length = acc.1.length + sizes.sum := by
  intro sizes
  induction sizes with
  | nil => intro acc; simp
  | cons sz rest ih =>
    intro acc
    simp only [List.foldl_cons, List.sum_cons]
    rw [ih, batchStep_length]
    omega

theorem handleGenerateNumbers_length (c : CountryData) (count seed : Nat)
    (hc : 1 ≤ count) : (handleGenerateNumbers c count seed).1.length = count := by
  rw [handleGenerateNumbers]
  by_cases h : count ≤ 2000
  · simp [h, generatePhoneNumber_length]
  · simp only [h, if_false]
    rw [foldl_batchStep_length]
    simp
    exact batchSizes_sum _ count rfl hc

theorem digitChar_isDigit (s : Nat) : (digitChar s).isDigit = true := by
  rw [digitChar]
  have h : s % 10 < 10 := Nat.mod_lt _ (by decide)
  set m := s % 10 with hm
  interval_cases m <;> decide

theorem fillTemplate_matches :
    ∀ (t : List Char) (seed : Nat), matchesTemplate t (fillTemplate seed t).1 = true := by
  intro t
  induction t with
  | nil => intro seed; rfl
  | cons tc rest ih =>
    intro seed
    by_cases h : tc = 'X'
    · simp [fillTemplate, matchesTemplate, h, digitChar_isDigit, ih]
    · simp [fillTemplate, matchesTemplate, h, ih]

theorem generatePhoneNumber_matches (c : CountryData) :
    ∀ n seed, ∀ s ∈ (generatePhoneNumber c n seed).1,
      matchesTemplate c.template s = true := by
  intro n
  induction n with
  | zero => intro seed s hs; simp [generatePhoneNumber] at hs
  | succ k ih =>
    intro seed s hs
    simp only [generatePhoneNumber, List.mem_cons] at hs
    rcases hs with h | h
    · rw [h]; exact fillTemplate_matches c.template seed
    · exact ih _ s h

theorem foldl_batchStep_matches (c : CountryData) :
    ∀ (sizes : List Nat) (acc : List (List Char) × Nat),
      (∀ s ∈ acc.1, matchesTemplate c.template s = true) →
      ∀ s ∈ (sizes.foldl (batchStep c) acc).1, matchesTemplate c.template s = true := by
  intro sizes
  induction sizes with
  | nil => intro acc hacc s hs; exact hacc s hs
  | cons sz rest ih =>
    intro acc hacc s hs
    refine ih _ ?_ s hs
    intro x hx
    simp only [batchStep, List.mem_append] at hx
    rcases hx with h | h
    · exact hacc x h
    · exact generatePhoneNumber_matches c sz acc.2 x h

theorem handleGenerateNumbers_matches (c : CountryData) (count seed : Nat) :
    ∀ s ∈ (handleGenerateNumbers c count seed).1,
      matchesTemplate c.template s = true := by
  rw [handleGenerateNumbers]
  by_cases h : count ≤ 2000
  · simp only [h, if_true]
    exact fun s hs => generatePhoneNumber_matches c count seed s hs
  · simp only [h, if_false]
    refine foldl_batchStep_matches c _ _ ?_
    intro x hx
    simp at hx

theorem applyCountEvent_bounds (count : Int) (e : CountEvent)
    (h1 : 1 ≤ count) (h2 : count ≤ 10000) :
    1 ≤ applyCountEvent count e ∧ applyCountEvent count e ≤ 10000 := by
  cases e with
  | load p =>
    cases p with
    | none => exact ⟨h1, h2⟩
    | some v =>
      simp only [applyCountEvent]
      by_cases hv : 0 < v ∧ v ≤ 10000
      · simp [hv]; omega
      · simp [hv]; exact ⟨h1, h2⟩
  | typed p =>
    cases p with
    | none => exact ⟨h1, h2⟩
    | some v =>
      simp only [applyCountEvent]
      by_cases hv : 0 < v ∧ v ≤ 10000
      · simp [hv]; omega
      · simp [hv]; exact ⟨h1, h2⟩

theorem foldl_applyCountEvent_bounds :
    ∀ (events : List CountEvent) (c : Int), 1 ≤ c → c ≤ 10000 →
      1 ≤ events.foldl applyCountEvent c ∧ events.foldl applyCountEvent c ≤ 10000 := by
  intro events
  induction events with
  | nil => intro c h1 h2; exact ⟨h1, h2⟩
  | cons e rest ih =>
    intro c h1 h2
    have h := applyCountEvent_bounds c e h1 h2
    exact ih (applyCountEvent c e) h.1 h.2

theorem listContainsSub_nil (s : List Char) : listContainsSub s [] = true := by
  cases s <;> simp [listContainsSub, listStartsWith]

theorem jsIncludesSub_empty (s : String) : jsIncludesSub s "" = true := by
  simp [jsIncludesSub, listContainsSub_nil]

theorem jsToLower_empty : jsToLower "" = "" := by decide

theorem filteredDomains_eq_filter (q : String) (allDomains : List String) :
    filteredDomains q allDomains
      = allDomains.filter (domainMatches (jsToLower q)) := by
  rw [filteredDomains]
  by_cases h : q = ""
  · simp only [h, if_true]
    symm
    rw [List.filter_eq_self]
    intro d _
    subst h
    simp [domainMatches, jsToLower_empty, jsIncludesSub_empty]
  · simp [h]

theorem filteredMails_eq_filter (q : String) (mails : List TempMail) :
    filteredMails q mails = mails.filter (mailMatches (jsToLower q)) := by
  rw [filteredMails]
  by_cases h : q = ""
  · simp only [h, if_true]
    symm
    rw [List.filter_eq_self]
    intro m _
    subst h
    simp [mailMatches, jsToLower_empty, jsIncludesSub_empty]
  · simp [h]

/-- C1: for every requested count `N` with `1 ≤ N ≤ 10000` and a
selected country, generation produces exactly `N` numbers; for
`N > 2000` the work is split into `ceil(N/1000)` batches of at most
1000 whose sizes sum to `N`, and the total length equals that of a
single-call generation. -/
theorem claim_C1_generation_count (c : CountryData) (count seed : Nat)
    (h1 : 1 ≤ count) (_h2 : count ≤ 10000) :
    (handleGenerateNumbers c count seed).1.length = count
    ∧ (2000 < count →
        (batchSizes count ((count + 999) / 1000)).length = (count + 999) / 1000
        ∧ (∀ sz ∈ batchSizes count ((count + 999) / 1000), sz ≤ 1000)
        ∧ (batchSizes count ((count + 999) / 1000)).sum = count
        ∧ (handleGenerateNumbers c count seed).1.length
            = (generatePhoneNumber c count seed).1.length) := by
  refine ⟨handleGenerateNumbers_length c count seed h1, fun _ => ⟨?_, ?_, ?_, ?_⟩⟩
  · simp [batchSizes]
  · intro sz hsz
    simp only [batchSizes, List.mem_map, List.mem_range] at hsz
    obtain ⟨i, _, rfl⟩ := hsz
    exact min_le_left _ _
  · exact batchSizes_sum _ count rfl h1
  · rw [handleGenerateNumbers_length c count seed h1,
      generatePhoneNumber_length c count seed]

/-- Witness for C1 at a concrete chunked input. -/
theorem claim_C1_witness :
    1 ≤ 2500 ∧ 2500 ≤ 10000
    ∧ (handleGenerateNumbers sampleCountry 2500 0).1.length = 2500 :=
  ⟨by decide, by decide,
   (claim_C1_generation_count sampleCountry 2500 0 (by decide) (by decide)).1⟩

/-- C2: every phone number produced by the generation action matches
the digit-length template of the country selected at the time of
generation. -/
theorem claim_C2_template_match (c : CountryData) (count seed : Nat) :
    ∀ s ∈ (handleGenerateNumbers c count seed).1,
      matchesTemplate c.template s = true :=
  handleGenerateNumbers_matches c count seed

/-- Witness for C2 at a concrete country and generated number. -/
theorem claim_C2_witness :
    ((handleGenerateNumbers sampleCountry 1 0).1.getD 0 [])
        ∈ (handleGenerateNumbers sampleCountry 1 0).1
    ∧ matchesTemplate sampleCountry.template
        ((handleGenerateNumbers sampleCountry 1 0).1.getD 0 []) = true :=
  ⟨by decide, claim_C2_template_match sampleCountry 1 0 _ (by decide)⟩

/-- C3: for every identity generation, the built email uses the custom
domain computed by the `'random'` filter: no custom domain for the
literal selection `"random"`, and exactly the selected domain
otherwise. -/
theorem claim_C3_custom_domain (seed : Nat) (c : CountryConfig) (dom : String) :
    (buildUserInfo seed c dom).email
      = generateEmail (nextSeed (nextSeed (nextSeed (nextSeed seed))))
          (generateName seed c.code).1 (generateName seed c.code).2
          (customDomainOf dom)
    ∧ (dom = "random" → customDomainOf dom = none)
    ∧ (dom ≠ "random" → customDomainOf dom = some dom) := by
  refine ⟨rfl, ?_, ?_⟩
  · intro h; simp [customDomainOf, h]
  · intro h; simp [customDomainOf, h]

/-- Witness for C3 on both sides of the filter. -/
theorem claim_C3_witness :
    customDomainOf "random" = none
    ∧ customDomainOf "yopmail.com" = some "yopmail.com" :=
  ⟨(claim_C3_custom_domain 0 ⟨"US", "USA"⟩ "random").2.1 rfl,
   (claim_C3_custom_domain 0 ⟨"US", "USA"⟩ "yopmail.com").2.2 (by decide)⟩

/-- C4: toggling the favorite status of a mail entry twice returns the
favorites state (persisted set and mirrored React set, in sync as
established by the mount effect) to its original value. -/
theorem claim_C4_toggle_involution (m : TempMail) (s : FavState)
    (h : m.id ∈ s.favs ↔ m.id ∈ s.storage) :
    handleToggleFavorite m (handleToggleFavorite m s) = s := by
  obtain ⟨storage, favs⟩ := s
  simp only at h
  by_cases hm : m.id ∈ storage
  · have hf : m.id ∈ favs := h.mpr hm
    simp [handleToggleFavorite, toggleFavorite, hm, Finset.not_mem_erase,
      Finset.insert_erase hm, Finset.insert_erase hf]
  · have hf : m.id ∉ favs := fun hx => hm (h.mp hx)
    simp [handleToggleFavorite, toggleFavorite, hm, Finset.mem_insert,
      Finset.erase_insert hm, Finset.erase_insert hf]

/-- Witness for C4 at a concrete entry and the empty state. -/
theorem claim_C4_witness :
    (sampleMail.id ∈ (FavState.mk ∅ ∅).favs
        ↔ sampleMail.id ∈ (FavState.mk ∅ ∅).storage)
    ∧ handleToggleFavorite sampleMail
        (handleToggleFavorite sampleMail (FavState.mk ∅ ∅)) = FavState.mk ∅ ∅ :=
  ⟨Iff.rfl, claim_C4_toggle_involution sampleMail (FavState.mk ∅ ∅) Iff.rfl⟩

/-- C5: the phone-generator count state starts at 10 and stays within
1..10000 under every sequence of settings-load and typed-input events,
since both sites guard with `parsed > 0 && parsed <= 10000`. -/
theorem claim_C5_count_invariant :
    countAfter [] = 10
    ∧ ∀ events : List CountEvent,
        1 ≤ countAfter events ∧ countAfter events ≤ 10000 :=
  ⟨rfl, fun events =>
    foldl_applyCountEvent_bounds events 10 (by decide) (by decide)⟩

/-- C6: the list filters return exactly the items containing the query
as a case-insensitive substring (for mailboxes, matching name,
description, or url), preserve the original order, and return the full
list for the empty query. -/
theorem claim_C6_filter (q : String) (domains : List String)
    (mails : List TempMail) :
    filteredDomains q domains = domains.filter (domainMatches (jsToLower q))
    ∧ (∀ d, d ∈ filteredDomains q domains
        ↔ d ∈ domains ∧ domainMatches (jsToLower q) d = true)
    ∧ List.Sublist (filteredDomains q domains) domains
    ∧ (q = "" → filteredDomains q domains = domains)
    ∧ filteredMails q mails = mails.filter (mailMatches (jsToLower q))
    ∧ (∀ m, m ∈ filteredMails q mails
        ↔ m ∈ mails ∧ mailMatches (jsToLower q) m = true)
    ∧ List.Sublist (filteredMails q mails) mails
    ∧ (q = "" → filteredMails q mails = mails) := by
  refine ⟨filteredDomains_eq_filter q domains, ?_, ?_, ?_,
    filteredMails_eq_filter q mails, ?_, ?_, ?_⟩
  · intro d
    rw [filteredDomains_eq_filter]
    exact List.mem_filter
  · rw [filteredDomains_eq_filter]
    exact List.filter_sublist domains
  · intro h; simp [filteredDomains, h]
  · intro m
    rw [filteredMails_eq_filter]
    exact List.mem_filter
  · rw [filteredMails_eq_filter]
    exact List.filter_sublist mails
  · intro h; simp [filteredMails, h]

/-- Witness for C6 at concrete lists and the empty query. -/
theorem claim_C6_witness :
    filteredDomains "" ["YOPmail.com", "Example.org"]
      = ["YOPmail.com", "Example.org"]
    ∧ filteredMails "" [sampleMail] = [sampleMail] :=
  ⟨(claim_C6_filter "" ["YOPmail.com", "Example.org"] [sampleMail]).2.2.2.1 rfl,
   (claim_C6_filter "" ["YOPmail.com", "Example.org"] [sampleMail]).2.2.2.2.2.2.2 rfl⟩

/-- C7: a failed IP fetch yields the fixed fallback record
(ip `未知`, country `US`) and the handler is total (no exception
escapes); a successful fetch substitutes the same per-field fallbacks
for missing fields. -/
theorem claim_C7_ip_fallback (d : IpData) :
    detectIPResult (Except.error ()) = ⟨"未知", "US"⟩
    ∧ detectIPResult (Except.ok d)
        = ⟨jsOrDefault d.ip "未知", jsOrDefault d.country "US"⟩
    ∧ (d.ip = none → (detectIPResult (Except.ok d)).ip = "未知")
    ∧ (d.country = none → (detectIPResult (Except.ok d)).country = "US") := by
  refine ⟨rfl, rfl, ?_, ?_⟩
  · intro h; simp [detectIPResult, jsOrDefault, h]
  · intro h; simp [detectIPResult, jsOrDefault, h]

/-- Witness for C7 at a payload with both fields missing. -/
theorem claim_C7_witness :
    (detectIPResult (Except.ok ⟨none, none, false⟩)).ip = "未知"
    ∧ (detectIPResult (Except.ok ⟨none, none, false⟩)).country = "US" :=
  ⟨(claim_C7_ip_fallback ⟨none, none, false⟩).2.2.1 rfl,
   (claim_C7_ip_fallback ⟨none, none, false⟩).2.2.2 rfl⟩

/-- C8: a successful identity regeneration replaces the whole
`UserInfo` record in one state update — the stored record equals the
freshly built one (independently of the previous state), and each of
the six fields comes from its generation routine. -/
theorem claim_C8_full_replacement (seed : Nat) (c : CountryConfig)
    (dom : String) (old : HomeState) :
    (generateFinish (Except.ok (buildUserInfo seed c dom)) old).userInfo
        = buildUserInfo seed c dom
    ∧ (∀ old₂ : HomeState,
        (generateFinish (Except.ok (buildUserInfo seed c dom)) old).userInfo
          = (generateFinish (Except.ok (buildUserInfo seed c dom)) old₂).userInfo)
    ∧ (buildUserInfo seed c dom).firstName = (generateName seed c.code).1
    ∧ (buildUserInfo seed c dom).lastName = (generateName seed c.code).2
    ∧ (buildUserInfo seed c dom).birthday = generateBirthday (nextSeed seed)
    ∧ (buildUserInfo seed c dom).phone
        = generatePhone (nextSeed (nextSeed seed)) c
    ∧ (buildUserInfo seed c dom).password
        = generatePassword (nextSeed (nextSeed (nextSeed seed)))
    ∧ (buildUserInfo seed c dom).email
        = generateEmail (nextSeed (nextSeed (nextSeed (nextSeed seed))))
            (generateName seed c.code).1 (generateName seed c.code).2
            (customDomainOf dom) := by
  refine ⟨rfl, fun _ => rfl, ?_, ?_, ?_, ?_, ?_, ?_⟩ <;> simp [buildUserInfo]

/-- C9 (counterexample): the copied-field feedback is a single value,
so copying `名字` 1000 ms after `姓氏` clears `姓氏`'s indicator well
inside its two-second window — feedback is not independent per
field. -/
theorem claim_C9_counterexample :
    indicatorShown (copyOk "姓氏" 0 ⟨none, none⟩) "姓氏" = true
    ∧ (copyOk "姓氏" 0 ⟨none, none⟩).timerExpiry = some 2000
    ∧ 1000 < 2000
    ∧ indicatorShown
        (copyOk "名字" 1000 (copyOk "姓氏" 0 ⟨none, none⟩)) "姓氏" = false := by
  decide

/-- C9 (amended): a successful copy records the field as the single
last-copied field and arms a 2000 ms clear timer; exactly that field's
indicator shows (so copying a field clears any other field's feedback),
and the timer firing clears it. -/
theorem claim_C9_amended (l : String) (now : Nat) (s : CopyFeedback) :
    (copyOk l now s).copiedField = some l
    ∧ (copyOk l now s).timerExpiry = some (now + 2000)
    ∧ indicatorShown (copyOk l now s) l = true
    ∧ (∀ f, f ≠ l → indicatorShown (copyOk l now s) f = false)
    ∧ (timerFire s).copiedField = none := by
  refine ⟨rfl, rfl, ?_, ?_, rfl⟩
  · simp [indicatorShown, copyOk]
  · intro f hf
    have hlf : l ≠ f := fun hh => hf hh.symm
    simp [indicatorShown, copyOk, hlf]

/-- Witness for the amended C9 at concrete fields. -/
theorem claim_C9_witness :
    indicatorShown (copyOk "手机号" 5 ⟨none, none⟩) "手机号" = true
    ∧ indicatorShown (copyOk "手机号" 5 ⟨none, none⟩) "生日" = false :=
  ⟨(claim_C9_amended "手机号" 5 ⟨none, none⟩).2.2.1,
   (claim_C9_amended "手机号" 5 ⟨none, none⟩).2.2.2.1 "生日" (by decide)⟩

/-- C10: when the generation routine throws, the previously generated
results (`generatedNumbers` on the phone page, `userInfo` on the
identity page) are left unchanged, and `isGenerating` is reset to
`false` on both the success and the error path (the `finally` arm). -/
theorem claim_C10_error_paths (res : Except Unit (List (List Char)))
    (ps : PhoneState) (resU : Except Unit UserInfo) (hs : HomeState) :
    (handleGenerateStep res ps).isGenerating = false
    ∧ (handleGenerateStep (Except.error ()) ps).generatedNumbers
        = ps.generatedNumbers
    ∧ (generateFinish resU hs).isGenerating = false
    ∧ (generateFinish (Except.error ()) hs).userInfo = hs.userInfo := by
  refine ⟨?_, rfl, ?_, rfl⟩
  · cases res <;> rfl
  · cases resU <;> rfl

end GenTools
